import Mathlib

/-!
Verification development for the tiny-tanks-time server
(apps/server/src/app/game.gateway.ts).

Modeling conventions, fixed once for the whole file:
- JavaScript numbers are modeled as exact rationals (ℚ).  None of the
  verified properties depends on IEEE-754 rounding; comparison thresholds in
  concrete inputs are chosen with a wide margin.
- Comparisons of the form Math.sqrt(dx*dx+dy*dy) < r from the source are
  restated on squares (dx*dx+dy*dy < r*r) when r is a nonnegative constant,
  which is equivalent because the square root is monotone.
- Math.random() is modeled as an explicit stream of draws (List ℚ) whose
  values lie in [0,1); Date.now() is an explicit parameter.
- setInterval / setTimeout callbacks are modeled as explicit step functions
  on an explicit state; the world registries (players map, bullets array,
  orbs array) are lists, iterated in insertion order exactly as a JS Map
  or Array is.
-/

namespace TinyTanks

/-- The rarity levels of the Upgrade interface (game.gateway.ts line 44). -/
inductive Rarity where
  | Common
  | Rare
  | Epic
  | Legendary
deriving DecidableEq, Repr

/-- PlayerStats interface (game.gateway.ts lines 29-38). -/
structure PlayerStats where
  maxHp : ℚ
  fireRate : ℚ
  bulletCount : ℚ
  bulletDamage : ℚ
  bulletSpeed : ℚ
  moveSpeed : ℚ
  pickupRange : ℚ
  rearGuard : Bool
deriving DecidableEq, Repr

/-- Player interface (game.gateway.ts lines 13-27). -/
structure Player where
  id : String
  x : ℚ
  y : ℚ
  angle : ℚ
  color : String
  hp : ℚ
  maxHp : ℚ
  exp : ℚ
  level : ℤ
  maxExp : ℚ
  stats : PlayerStats
  immuneUntil : ℚ
  pendingLevelUp : Bool
deriving DecidableEq, Repr

/-- Upgrade interface (game.gateway.ts lines 40-46).  The apply closure is
embedded as a Lean function on Player. -/
structure Upgrade where
  id : String
  name : String
  description : String
  rarity : Rarity
  apply : Player → Player

/-- Orb interface (game.gateway.ts lines 48-53). -/
structure Orb where
  id : String
  x : ℚ
  y : ℚ
  value : ℚ
deriving DecidableEq, Repr

/-- Bullet record as pushed into gameState.bullets (game.gateway.ts
lines 277-283): id, position, angle and owning player id only; bullets carry
no damage field. -/
structure Bullet where
  id : String
  x : ℚ
  y : ℚ
  angle : ℚ
  playerId : String
deriving DecidableEq, Repr

/-- Outbound socket events, reduced to the entity ids they carry; the
levelUpOptions event additionally carries the offered upgrade ids. -/
inductive Event where
  | orbCollected (orbId : String)
  | playerExpUpdate (playerId : String)
  | playerImmunity (playerId : String)
  | levelUpOptions (playerId : String) (optionIds : List String)
  | playerMoved (playerId : String)
  | playerHit (playerId : String)
  | bulletShot (bulletId : String)
  | bulletRemoved (bulletId : String)
deriving DecidableEq, Repr

/-- MAP_WIDTH (game.gateway.ts line 115). -/
def MAP_WIDTH : ℚ := 4000

/-- MAP_HEIGHT (game.gateway.ts line 116). -/
def MAP_HEIGHT : ℚ := 4000

/-- An axis-aligned rectangular obstacle (game.gateway.ts line 119). -/
structure Obstacle where
  x : ℚ
  y : ℚ
  width : ℚ
  height : ℚ
deriving DecidableEq, Repr

/-- The fixed obstacle list (game.gateway.ts lines 119-125). -/
def obstacles : List Obstacle :=
  [ { x := 400, y := 300, width := 120, height := 40 },
    { x := 900, y := 600, width := 60, height := 200 },
    { x := 1400, y := 450, width := 200, height := 60 },
    { x := 700, y := 1100, width := 300, height := 40 } ]

/-- checkCollision (game.gateway.ts lines 127-147): true when the circle at
(x,y) with the given radius leaves the map rectangle or its center is closer
than radius to one of the rectangular obstacles (closest point on rect,
compared on squared distances as in the source). -/
def checkCollision (x y radius : ℚ) : Bool :=
  if x < radius || x > MAP_WIDTH - radius || y < radius || y > MAP_HEIGHT - radius then
    true
  else
    obstacles.any fun obs =>
      let closestX := max obs.x (min x (obs.x + obs.width))
      let closestY := max obs.y (min y (obs.y + obs.height))
      let distanceX := x - closestX
      let distanceY := y - closestY
      decide (distanceX * distanceX + distanceY * distanceY < radius * radius)

/-- The Player record built in handleConnection (game.gateway.ts
lines 152-176); the random spawn position and the color pick are passed
explicitly. -/
def freshPlayer (id : String) (x y : ℚ) (color : String) : Player :=
  { id := id, x := x, y := y, angle := 0, color := color,
    hp := 100, maxHp := 100, exp := 0, level := 1, maxExp := 100,
    stats :=
      { maxHp := 100, fireRate := 300, bulletCount := 1, bulletDamage := 10,
        bulletSpeed := 360, moveSpeed := 240, pickupRange := 35,
        rearGuard := false },
    immuneUntil := 0, pendingLevelUp := false }

/-- titan_hull_1 catalog entry (game.gateway.ts line 448): stats.maxHp is
multiplied by 1.2 and hp is then set to the new stats.maxHp; the top level
maxHp field of the player is not touched by the source closure. -/
def titanHull1 : Upgrade :=
  { id := "titan_hull_1", name := "Titan Hull I", description := "+20% Max HP",
    rarity := .Common,
    apply := fun p =>
      { p with stats := { p.stats with maxHp := p.stats.maxHp * (6/5) },
               hp := p.stats.maxHp * (6/5) } }

/-- rapid_fire_1 catalog entry (game.gateway.ts line 449). -/
def rapidFire1 : Upgrade :=
  { id := "rapid_fire_1", name := "Rapid Fire I", description := "+10% Fire Rate",
    rarity := .Common,
    apply := fun p =>
      { p with stats := { p.stats with fireRate := p.stats.fireRate * (9/10) } } }

/-- swiftness_1 catalog entry (game.gateway.ts line 450). -/
def swiftness1 : Upgrade :=
  { id := "swiftness_1", name := "Swiftness I", description := "+10% Move Speed",
    rarity := .Common,
    apply := fun p =>
      { p with stats := { p.stats with moveSpeed := p.stats.moveSpeed * (11/10) } } }

/-- high_caliber_1 catalog entry (game.gateway.ts line 451): multiplies
stats.bulletDamage by 1.1. -/
def highCaliber1 : Upgrade :=
  { id := "high_caliber_1", name := "High Caliber I", description := "+10% Damage",
    rarity := .Common,
    apply := fun p =>
      { p with stats := { p.stats with bulletDamage := p.stats.bulletDamage * (11/10) } } }

/-- magnetism_1 catalog entry (game.gateway.ts line 452). -/
def magnetism1 : Upgrade :=
  { id := "magnetism_1", name := "Magnetism I", description := "+20% Pickup Range",
    rarity := .Common,
    apply := fun p =>
      { p with stats := { p.stats with pickupRange := p.stats.pickupRange * (6/5) } } }

/-- titan_hull_2 catalog entry (game.gateway.ts line 454). -/
def titanHull2 : Upgrade :=
  { id := "titan_hull_2", name := "Titan Hull II", description := "+40% Max HP",
    rarity := .Rare,
    apply := fun p =>
      { p with stats := { p.stats with maxHp := p.stats.maxHp * (7/5) },
               hp := p.stats.maxHp * (7/5) } }

/-- rapid_fire_2 catalog entry (game.gateway.ts line 455). -/
def rapidFire2 : Upgrade :=
  { id := "rapid_fire_2", name := "Rapid Fire II", description := "+20% Fire Rate",
    rarity := .Rare,
    apply := fun p =>
      { p with stats := { p.stats with fireRate := p.stats.fireRate * (4/5) } } }

/-- double_barrel_1 catalog entry (game.gateway.ts line 456). -/
def doubleBarrel1 : Upgrade :=
  { id := "double_barrel_1", name := "Double Barrel", description := "+1 Bullet",
    rarity := .Rare,
    apply := fun p =>
      { p with stats := { p.stats with bulletCount := p.stats.bulletCount + 1 } } }

/-- titan_hull_3 catalog entry (game.gateway.ts line 458). -/
def titanHull3 : Upgrade :=
  { id := "titan_hull_3", name := "Titan Hull III", description := "+60% Max HP",
    rarity := .Epic,
    apply := fun p =>
      { p with stats := { p.stats with maxHp := p.stats.maxHp * (8/5) },
               hp := p.stats.maxHp * (8/5) } }

/-- rear_guard catalog entry (game.gateway.ts line 459). -/
def rearGuardUpg : Upgrade :=
  { id := "rear_guard", name := "Rear Guard", description := "Back Cannon",
    rarity := .Epic,
    apply := fun p =>
      { p with stats := { p.stats with rearGuard := true } } }

/-- titan_hull_4 catalog entry (game.gateway.ts line 461). -/
def titanHull4 : Upgrade :=
  { id := "titan_hull_4", name := "Titan Hull IV", description := "+100% Max HP",
    rarity := .Legendary,
    apply := fun p =>
      { p with stats := { p.stats with maxHp := p.stats.maxHp * 2 },
               hp := p.stats.maxHp * 2 } }

/-- ALL_UPGRADES registry (game.gateway.ts lines 447-462), in source order.
The catalog has no ownership or prerequisite information of any kind. -/
def ALL_UPGRADES : List Upgrade :=
  [ titanHull1, rapidFire1, swiftness1, highCaliber1, magnetism1,
    titanHull2, rapidFire2, doubleBarrel1,
    titanHull3, rearGuardUpg,
    titanHull4 ]

/-- One Math.random() draw from an explicit stream; an exhausted stream
yields 0 (never relied upon: every concrete evaluation supplies enough
draws). -/
def draw : List ℚ → ℚ × List ℚ
  | [] => (0, [])
  | r :: rs => (r, rs)

/-- The rarity roll of generateUpgrades (game.gateway.ts lines 467-471):
rand above 0.95 gives Legendary, above 0.85 Epic, above 0.60 Rare, else
Common. -/
def rarityFor (rand : ℚ) : Rarity :=
  if rand > 95/100 then .Legendary
  else if rand > 85/100 then .Epic
  else if rand > 60/100 then .Rare
  else .Common

/-- pool[Math.floor(Math.random() * pool.length)] (game.gateway.ts
lines 475 and 479).  The fallback value titanHull1 is reached only when the
draw lies outside [0,1) or the pool is empty, which never happens on the
streams used here. -/
def pickFrom (pool : List Upgrade) (r : ℚ) : Upgrade :=
  ((pool.get? (Rat.floor (r * (pool.length : ℚ))).toNat).getD titanHull1)

/-- The body of one iteration of the generateUpgrades loop (game.gateway.ts
lines 466-481): roll a rarity, filter the full registry to that rarity, and
pick a random entry, falling back to the Common pool when the rarity pool
is empty.  No player is consulted: there is no ownership, prerequisite or
duplicate filtering. -/
def draftSlot (rands : List ℚ) : Upgrade × List ℚ :=
  let rand := (draw rands).1
  let rands1 := (draw rands).2
  let rarity := rarityFor rand
  let pool := ALL_UPGRADES.filter fun u => u.rarity == rarity
  let r2 := (draw rands1).1
  let rands2 := (draw rands1).2
  let chosen :=
    if pool.length > 0 then pickFrom pool r2
    else pickFrom (ALL_UPGRADES.filter fun u => u.rarity == Rarity.Common) r2
  (chosen, rands2)

/-- generateUpgrades (game.gateway.ts lines 464-483): one draftSlot per
requested option, options collected in push order, the random stream
threaded through. -/
def generateUpgrades : Nat → List ℚ → List Upgrade × List ℚ
  | 0, rands => ([], rands)
  | n + 1, rands =>
    let slot := draftSlot rands
    let rest := generateUpgrades n slot.2
    (slot.1 :: rest.1, rest.2)

/-- sendLevelUpOptions (game.gateway.ts lines 388-406): generate a 3-option
draft, set the immunity window of the player to now+10000, and emit
playerImmunity followed by levelUpOptions carrying the option ids (the DTO
strips the apply closure). -/
def sendLevelUpOptions (p : Player) (now : ℚ) (rands : List ℚ) :
    Player × List Event × List ℚ :=
  let gen := generateUpgrades 3 rands
  let optionIds := gen.1.map (·.id)
  ({ p with immuneUntil := now + 10000 },
   [Event.playerImmunity p.id, Event.levelUpOptions p.id optionIds],
   gen.2)

/-- The shared exp-gain and level-check path: exp increases by v, and when
exp has reached maxExp while no level-up is pending, pendingLevelUp is set
and sendLevelUpOptions runs.  This is the code at game.gateway.ts
lines 230-234 (orb pickup) and lines 331-338 (kill credit, with the shooter
socket present). -/
def gainExp (p : Player) (v : ℚ) (now : ℚ) (rands : List ℚ) :
    Player × List Event × List ℚ :=
  let p1 := { p with exp := p.exp + v }
  if p1.maxExp ≤ p1.exp ∧ p1.pendingLevelUp = false then
    sendLevelUpOptions { p1 with pendingLevelUp := true } now rands
  else
    (p1, [], rands)

/-- A sequence of exp gains applied one after the other, modeling any
interleaving of orb pickups and kill credits hitting one player between two
of its messages. -/
def gainExpSeq (p : Player) (gains : List ℚ) (now : ℚ) (rands : List ℚ) :
    Player × List Event × List ℚ :=
  match gains with
  | [] => (p, [], rands)
  | v :: rest =>
    let g1 := gainExp p v now rands
    let g2 := gainExpSeq g1.1 rest now g1.2.2
    (g2.1, g1.2.1 ++ g2.2.1, g2.2.2)

/-- True exactly on levelUpOptions events. -/
def isDraftEvent : Event → Bool
  | .levelUpOptions _ _ => true
  | _ => false

/-- Number of upgrade drafts issued within an event list. -/
def draftCount (evs : List Event) : Nat :=
  (evs.filter isDraftEvent).length

/-- The orb-collection filter of handlePlayerMove (game.gateway.ts
lines 223-252), processed in array order: an orb within pickupRange of the
player is removed, its value is gained (with the level check), and
orbCollected plus playerExpUpdate are emitted.  The comparison
Math.sqrt(dx*dx+dy*dy) < pickupRange is restated on squares, guarded by
0 ≤ pickupRange to stay exact for every input.  The delayed spawnOrb call
is future scheduled work outside this handler and is not part of its state
change. -/
def collectOrbs (p : Player) (orbs : List Orb) (now : ℚ) (rands : List ℚ) :
    Player × List Orb × List Event × List ℚ :=
  match orbs with
  | [] => (p, [], [], rands)
  | orb :: rest =>
    let dx := p.x - orb.x
    let dy := p.y - orb.y
    if 0 ≤ p.stats.pickupRange ∧
        dx * dx + dy * dy < p.stats.pickupRange * p.stats.pickupRange then
      let g1 := gainExp p orb.value now rands
      let rec1 := collectOrbs g1.1 rest now g1.2.2
      (rec1.1, rec1.2.1,
       g1.2.1 ++ [Event.orbCollected orb.id, Event.playerExpUpdate g1.1.id]
         ++ rec1.2.2.1,
       rec1.2.2.2)
    else
      let rec1 := collectOrbs p rest now rands
      (rec1.1, orb :: rec1.2.1, rec1.2.2.1, rec1.2.2.2)

/-- Movement intent payload (game.gateway.ts line 208). -/
structure MoveData where
  x : ℚ
  y : ℚ
  angle : ℚ
deriving DecidableEq, Repr

/-- handlePlayerMove (game.gateway.ts lines 206-267) for an existing
player: the position is taken only when checkCollision(x, y, 20) is false,
the angle is always taken, then orb collection runs and the playerMoved
broadcast is emitted. -/
def handlePlayerMove (p : Player) (data : MoveData) (orbs : List Orb)
    (now : ℚ) (rands : List ℚ) : Player × List Orb × List Event × List ℚ :=
  let p1 := if checkCollision data.x data.y 20 then p
            else { p with x := data.x, y := data.y }
  let p2 := { p1 with angle := data.angle }
  let res := collectOrbs p2 orbs now rands
  (res.1, res.2.1, res.2.2.1 ++ [Event.playerMoved res.1.id], res.2.2.2)

/-- Shoot intent payload (game.gateway.ts line 271). -/
structure ShootData where
  x : ℚ
  y : ℚ
  angle : ℚ
deriving DecidableEq, Repr

/-- The bullet-spawning part of handleShoot (game.gateway.ts lines 274-286):
when the shooter exists, exactly one bullet is pushed, at the submitted
position and angle, with id client.id-Date.now(); no stat of the shooter is
read.  Returns the updated bullets array and the emitted events. -/
def handleShoot (shooter : Option Player) (data : ShootData) (nowMs : ℤ)
    (bullets : List Bullet) : List Bullet × List Event :=
  match shooter with
  | none => (bullets, [])
  | some sh =>
    let b : Bullet :=
      { id := sh.id ++ "-" ++ toString nowMs, x := data.x, y := data.y,
        angle := data.angle, playerId := sh.id }
    (bullets ++ [b], [Event.bulletShot b.id])

/-- The level-advance block of handleSelectUpgrade (game.gateway.ts
lines 425-432): level+1, exp decreased by the old maxExp, maxExp set to
floor(1.2 * maxExp), hp healed to stats.maxHp, pendingLevelUp cleared and
immunity cleared. -/
def levelUpProcess (p : Player) : Player :=
  { p with level := p.level + 1,
           exp := p.exp - p.maxExp,
           maxExp := (Rat.floor (p.maxExp * (6/5)) : ℚ),
           hp := p.stats.maxHp,
           pendingLevelUp := false,
           immuneUntil := 0 }

/-- handleSelectUpgrade (game.gateway.ts lines 408-444) for an existing
player: a no-op unless a level-up is pending; the chosen id is looked up in
ALL_UPGRADES and its apply closure runs when found, after which the
level-advance block runs unconditionally.  The two broadcasts report fields
of the returned player and are not modeled separately. -/
def handleSelectUpgrade (p : Player) (upgradeId : String) : Player :=
  if p.pendingLevelUp = false then p
  else
    match ALL_UPGRADES.find? (fun u => u.id == upgradeId) with
    | some u => levelUpProcess (u.apply p)
    | none => levelUpProcess p

/-- The hit test of the bullet stepper (game.gateway.ts lines 309-313):
the distance from the player to the bullet is below
tankRadius + bulletRadius = 25, restated on squares. -/
def inRange (b : Bullet) (p : Player) : Bool :=
  let dx := p.x - b.x
  let dy := p.y - b.y
  decide (dx * dx + dy * dy < 625)

/-- The first player the bullet-stepper loop stops at (game.gateway.ts
lines 306-313): iterate the players map in insertion order, skip the entry
whose key equals bullet.playerId, and stop at the first player within
range.  The loop body breaks right after mutating that player, so locating
the first in-range player first is an exact restatement. -/
def firstTarget (b : Bullet) : List Player → Option Player
  | [] => none
  | p :: rest =>
    if p.id == b.playerId then firstTarget b rest
    else if inRange b p then some p else firstTarget b rest

/-- Replace the map entry with the given id (in-place mutation of a Map
value in the source). -/
def updateById (ps : List Player) (pid : String) (p' : Player) : List Player :=
  ps.map fun q => if q.id == pid then p' else q

/-- removeBullet (game.gateway.ts lines 383-386): filter the bullet id out
of the bullets array; every call also emits one bulletRemoved event, which
the callers of this definition append. -/
def removeBulletList (bullets : List Bullet) (bulletId : String) : List Bullet :=
  bullets.filter fun b => b.id != bulletId

/-- The state read and written by one bullet stepper callback: the closure
variables bullet and active, the shared players and bullets registries, the
emitted events and the pending random stream. -/
structure TickState where
  bullet : Bullet
  players : List Player
  bullets : List Bullet
  active : Bool
  events : List Event
  rands : List ℚ

/-- The position step of the bullet stepper (game.gateway.ts
lines 300-303): advance by bulletSpeed(360) * dt(0.05) = 18 units along the
fixed angle, whose cosine and sine are the parameters c and s. -/
def moveBullet (b : Bullet) (c s : ℚ) : Bullet :=
  { b with
    x := b.x + c * 360 * (1/20),
    y := b.y + s * 360 * (1/20) }

/-- One run of the 50ms setInterval callback of handleShoot
(game.gateway.ts lines 294-372), with c and s the cosine and sine of the
fixed bullet angle and now the value of Date.now() during this run.  The
callback: returns at once when active is already false; advances the bullet
with moveBullet; resolves the first in-range player other than the owner
(immune target: bullet removed; otherwise hp -= 10, and on hp ≤ 0 the
victim is respawned in place with hp = maxHp at a fresh random position
while the shooter entry, looked up by bullet.playerId, is credited 50 exp
with the level check); and finally runs the obstacle check, which the
source does NOT guard by the active flag, so it can remove the bullet a
second time in the same run.  The shooter closure variable aliases the
players-map entry while the shooter stays connected, which is the case
modeled here; events carry entity ids only, so the emits are exact. -/
def bulletTick (c s now : ℚ) (st : TickState) : TickState :=
  if st.active = false then st
  else
    let b : Bullet := moveBullet st.bullet c s
    let st1 : TickState :=
      match firstTarget b st.players with
      | none => { st with bullet := b }
      | some victim =>
        if victim.immuneUntil > now then
          { st with bullet := b,
                    bullets := removeBulletList st.bullets b.id,
                    events := st.events ++ [Event.bulletRemoved b.id],
                    active := false }
        else
          let hp1 := victim.hp - 10
          if hp1 ≤ 0 then
            let r1 := (draw st.rands).1
            let rs1 := (draw st.rands).2
            let r2 := (draw rs1).1
            let rs2 := (draw rs1).2
            let victim2 :=
              { victim with hp := victim.maxHp,
                            x := r1 * 3800 + 100,
                            y := r2 * 3800 + 100 }
            let players1 := updateById st.players victim.id victim2
            let credit : List Player × List Event × List ℚ :=
              match players1.find? (fun q => q.id == b.playerId) with
              | some sh =>
                let g := gainExp sh 50 now rs2
                (updateById players1 b.playerId g.1, g.2.1, g.2.2)
              | none => (players1, [], rs2)
            { bullet := b, players := credit.1,
              bullets := removeBulletList st.bullets b.id,
              active := false,
              events := st.events ++ credit.2.1 ++
                [Event.playerHit victim.id, Event.playerExpUpdate b.playerId,
                 Event.bulletRemoved b.id],
              rands := credit.2.2 }
          else
            let victim2 := { victim with hp := hp1 }
            { st with bullet := b,
                      players := updateById st.players victim.id victim2,
                      bullets := removeBulletList st.bullets b.id,
                      events := st.events ++
                        [Event.playerHit victim.id, Event.playerExpUpdate b.playerId,
                         Event.bulletRemoved b.id],
                      active := false }
    if checkCollision b.x b.y 5 then
      { st1 with bullets := removeBulletList st1.bullets b.id,
                 events := st1.events ++ [Event.bulletRemoved b.id],
                 active := false }
    else st1

/-- A connected shooter standing far from the action. -/
def cShooter : Player := freshPlayer "s" 3000 3000 "#ff6b6b"

/-- A victim standing right next to the first obstacle. -/
def c1Victim : Player := freshPlayer "v" 420 315 "#4ecdc4"

/-- A bullet owned by the shooter, one step away from a position that is
both within hit range of c1Victim and inside the first obstacle. -/
def c1Bullet : Bullet := { id := "s-0", x := 392, y := 310, angle := 0, playerId := "s" }

/-- Stepper state for the double-removal run. -/
def c1State : TickState :=
  { bullet := c1Bullet, players := [cShooter, c1Victim], bullets := [c1Bullet],
    active := true, events := [], rands := [] }

/-- A shooter that owns high_caliber_1, so its bulletDamage stat is 11. -/
def c3Shooter : Player := highCaliber1.apply (freshPlayer "s" 3000 3000 "#ff6b6b")

/-- A full-health victim in open terrain. -/
def c3Victim : Player := freshPlayer "v" 2000 2000 "#4ecdc4"

/-- A bullet one step away from hitting c3Victim, in open terrain. -/
def c3Bullet : Bullet := { id := "s-0", x := 1992, y := 2005, angle := 0, playerId := "s" }

/-- Stepper state for the damage-stat run. -/
def c3State : TickState :=
  { bullet := c3Bullet, players := [c3Shooter, c3Victim], bullets := [c3Bullet],
    active := true, events := [], rands := [] }

/-- A victim at 10 hp, about to take lethal damage. -/
def c5Victim : Player := { freshPlayer "v" 2000 2000 "#4ecdc4" with hp := 10 }

/-- A bullet one step away from killing c5Victim. -/
def c5Bullet : Bullet := { id := "s-0", x := 1992, y := 2005, angle := 0, playerId := "s" }

/-- Stepper state for the lethal-hit run; the two random draws 1/4 and 1/10
become the respawn position (1050, 480). -/
def c5State : TickState :=
  { bullet := c5Bullet, players := [cShooter, c5Victim], bullets := [c5Bullet],
    active := true, events := [], rands := [1/4, 1/10] }

/-- A player at the level-up threshold with a pending draft. -/
def c2Player : Player :=
  { freshPlayer "p" 500 500 "#feca57" with exp := 100, pendingLevelUp := true }

/-- A shooter whose bulletCount stat is 3. -/
def c7Shooter : Player :=
  { freshPlayer "s" 100 100 "#feca57" with
    stats := { (freshPlayer "s" 100 100 "#feca57").stats with bulletCount := 3 } }

/-- A player with a pending draft whose exp is already past maxExp. -/
def c8Player : Player :=
  { freshPlayer "p" 500 500 "#feca57" with exp := 120, pendingLevelUp := true }

/-- A player with a pending draft and a live immunity window. -/
def c9Player : Player :=
  { freshPlayer "p" 500 500 "#feca57" with
    exp := 100
    pendingLevelUp := true
    immuneUntil := 5000 }

/-- A player with a pending draft. -/
def c10Player : Player :=
  { freshPlayer "p" 500 500 "#feca57" with pendingLevelUp := true }

/-- The first catalog entry belongs to the catalog. -/
theorem titanHull1_mem : titanHull1 ∈ ALL_UPGRADES := by
  unfold ALL_UPGRADES
  exact List.Mem.head _

/-- pickFrom only returns entries of the pool or its catalog default. -/
theorem pickFrom_mem (pool : List Upgrade) (r : ℚ)
    (hsub : ∀ u ∈ pool, u ∈ ALL_UPGRADES) : pickFrom pool r ∈ ALL_UPGRADES := by
  unfold pickFrom
  cases hge : pool.get? (Rat.floor (r * (pool.length : ℚ))).toNat with
  | none => simpa [hge] using titanHull1_mem
  | some u =>
    simp only [hge, Option.getD_some]
    exact hsub u (List.get?_mem hge)

/-- Every slot of a draft is drawn from ALL_UPGRADES. -/
theorem draftSlot_mem (rands : List ℚ) : (draftSlot rands).1 ∈ ALL_UPGRADES := by
  unfold draftSlot
  dsimp only
  split
  · exact pickFrom_mem _ _ fun u hu => List.mem_of_mem_filter hu
  · exact pickFrom_mem _ _ fun u hu => List.mem_of_mem_filter hu

/-- gainExp changes exp by exactly the gained value. -/
theorem gainExp_exp (p : Player) (v now : ℚ) (rands : List ℚ) :
    ((gainExp p v now rands).1).exp = p.exp + v := by
  unfold gainExp sendLevelUpOptions
  dsimp only
  split <;> rfl

/-- gainExp never moves the player. -/
theorem gainExp_keeps (p : Player) (v now : ℚ) (rands : List ℚ) :
    ((gainExp p v now rands).1).x = p.x ∧ ((gainExp p v now rands).1).y = p.y
    ∧ ((gainExp p v now rands).1).angle = p.angle := by
  unfold gainExp sendLevelUpOptions
  dsimp only
  split <;> exact ⟨rfl, rfl, rfl⟩

/-- While a level-up is pending, gainExp only adds exp: the level check at
game.gateway.ts lines 231-234 and 338 is guarded by pendingLevelUp, so no
draft is issued and no state other than exp changes. -/
theorem gainExp_of_pending (p : Player) (v now : ℚ) (rands : List ℚ)
    (h : p.pendingLevelUp = true) :
    gainExp p v now rands = ({ p with exp := p.exp + v }, [], rands) := by
  unfold gainExp
  rw [if_neg]
  simp [h]

/-- Orb collection never moves the player. -/
theorem collectOrbs_keeps (orbs : List Orb) (p : Player) (now : ℚ) (rands : List ℚ) :
    ((collectOrbs p orbs now rands).1).x = p.x
    ∧ ((collectOrbs p orbs now rands).1).y = p.y
    ∧ ((collectOrbs p orbs now rands).1).angle = p.angle := by
  induction orbs generalizing p rands with
  | nil => exact ⟨rfl, rfl, rfl⟩
  | cons orb rest ih =>
    simp only [collectOrbs]
    split
    · obtain ⟨hx, hy, ha⟩ :=
        ih (gainExp p orb.value now rands).1 (gainExp p orb.value now rands).2.2
      obtain ⟨gx, gy, ga⟩ := gainExp_keeps p orb.value now rands
      exact ⟨hx.trans gx, hy.trans gy, ha.trans ga⟩
    · exact ih p rands

/-- C4 amended: every generated draft has exactly count options and each of
them is an entry of ALL_UPGRADES; beyond the rarity roll there is no
filtering of any kind, as witnessed by the counterexample above. -/
theorem c4_draft_within_catalog (count : Nat) (rands : List ℚ) :
    ((generateUpgrades count rands).1).length = count
    ∧ ∀ u ∈ (generateUpgrades count rands).1, u ∈ ALL_UPGRADES := by
  induction count generalizing rands with
  | zero => exact ⟨rfl, fun u hu => absurd hu (List.not_mem_nil u)⟩
  | succ n ih =>
    obtain ⟨hlen, hmem⟩ := ih (draftSlot rands).2
    refine ⟨?_, ?_⟩
    · simp only [generateUpgrades, List.length_cons, hlen]
    · intro u hu
      simp only [generateUpgrades] at hu
      rcases List.mem_cons.mp hu with h | h
      · exact h ▸ draftSlot_mem rands
      · exact hmem u h

/-- C1: the claim says bulletRemoved fires exactly once per bullet id, with
the active flag guaranteeing that at most one competing callback performs
the removal.  In a single stepper run where the moved bullet is both within
hit range of a player and inside an obstacle, the source removes the bullet
in the hit branch (game.gateway.ts lines 313-363, setting active = false
and breaking) and then again in the obstacle branch (lines 367-371), which
is not guarded by the active flag: two bulletRemoved events are emitted for
the same bullet id in one run. -/
theorem c1_double_bullet_removed :
    (bulletTick 1 0 0 c1State).events
      = [Event.playerHit "v", Event.playerExpUpdate "s",
         Event.bulletRemoved "s-0", Event.bulletRemoved "s-0"]
    ∧ (bulletTick 1 0 0 c1State).events.count (Event.bulletRemoved "s-0") = 2 := by
  norm_num +decide [bulletTick, moveBullet, c1State, c1Bullet, c1Victim, cShooter, freshPlayer,
    firstTarget, inRange, updateById, removeBulletList, checkCollision, obstacles,
    MAP_WIDTH, MAP_HEIGHT, draw, List.count_cons]

/-- C2: the claim says hp never exceeds the maxHp field of the player.
Selecting titan_hull_1 multiplies stats.maxHp by 1.2 and heals hp to the
new stats.maxHp (game.gateway.ts line 448 with line 429), but no code path
ever updates the top-level maxHp field, so the handler returns a player
with hp = 120 while maxHp is still 100. -/
theorem c2_titan_hull_hp_exceeds_maxHp :
    (handleSelectUpgrade c2Player "titan_hull_1").hp = 120
    ∧ (handleSelectUpgrade c2Player "titan_hull_1").maxHp = 100
    ∧ ¬ (handleSelectUpgrade c2Player "titan_hull_1").hp
        ≤ (handleSelectUpgrade c2Player "titan_hull_1").maxHp := by
  norm_num +decide [handleSelectUpgrade, c2Player, freshPlayer, levelUpProcess,
    ALL_UPGRADES, titanHull1, rapidFire1, swiftness1, highCaliber1, magnetism1,
    titanHull2, rapidFire2, doubleBarrel1, titanHull3, rearGuardUpg, titanHull4,
    List.find?, Rat.floor]

/-- C3: the claim says a hit applies exactly the bulletDamage stat of the
shooter as copied at fire time.  The bullet record carries no damage field
and the hit resolution applies a flat 10 (game.gateway.ts line 323, whose
own comment reads: Use bullet damage from shooter stats later?): a shooter
owning high_caliber_1 has bulletDamage 11, yet the victim drops from 100 hp
to 90, not to 89 as the claim requires. -/
theorem c3_flat_damage_ignores_stats :
    c3Shooter.stats.bulletDamage = 11
    ∧ (bulletTick 1 0 0 c3State).players.map Player.hp = [100, 90]
    ∧ c3Victim.hp - c3Shooter.stats.bulletDamage = 89
    ∧ (90 : ℚ) ≠ 89 := by
  norm_num +decide [bulletTick, moveBullet, c3State, c3Bullet, c3Victim, c3Shooter, freshPlayer,
    highCaliber1, firstTarget, inRange, updateById, removeBulletList, checkCollision,
    obstacles, MAP_WIDTH, MAP_HEIGHT, draw]

/-- C4: the claim says a draft never offers titan_hull_2 to a player not
owning titan_hull_1 and never repeats an upgrade within one offer.  With
the random stream 0.7, 0, 0.7, 0, 0.7, 0 the generated draft is
titan_hull_2 three times: generateUpgrades (game.gateway.ts lines 464-483)
does not even receive the player, performs no ownership or prerequisite
filtering, and draws every slot independently from the full registry. -/
theorem c4_titan_hull_2_offered :
    ((generateUpgrades 3 [7/10, 0, 7/10, 0, 7/10, 0]).1.map Upgrade.id)
      = ["titan_hull_2", "titan_hull_2", "titan_hull_2"] := by
  norm_num +decide [generateUpgrades, draftSlot, draw, rarityFor, pickFrom,
    ALL_UPGRADES, titanHull1, rapidFire1, swiftness1, highCaliber1, magnetism1,
    titanHull2, rapidFire2, doubleBarrel1, titanHull3, rearGuardUpg, titanHull4,
    Rat.floor, List.filter]

/-- C5: the claim says a human victim at 0 hp is only marked dead, with hp
not restored and position not relocated until an explicit respawn request.
The death branch of the stepper (game.gateway.ts lines 324-339) does the
opposite in the same run: the victim at 10 hp takes the lethal hit, its hp
returns to maxHp = 100 at once and it is relocated to the random position
(1050, 480); the server has no dead state and no respawn message handler. -/
theorem c5_auto_respawn_counterexample :
    (bulletTick 1 0 0 c5State).players.map Player.hp = [100, 100]
    ∧ (bulletTick 1 0 0 c5State).players.map Player.x = [3000, 1050]
    ∧ (bulletTick 1 0 0 c5State).players.map Player.y = [3000, 480]
    ∧ (bulletTick 1 0 0 c5State).players.map Player.exp = [50, 0]
    ∧ c5Victim.hp = 10 ∧ c5Victim.x = 2000 ∧ c5Victim.y = 2000 := by
  norm_num +decide [bulletTick, moveBullet, c5State, c5Bullet, c5Victim, cShooter, freshPlayer,
    firstTarget, inRange, updateById, removeBulletList, checkCollision, obstacles,
    MAP_WIDTH, MAP_HEIGHT, draw, gainExp, sendLevelUpOptions, generateUpgrades,
    List.find?]

/-- C7: the claim says a shooter with bulletCount = 3 firing once creates
three fanned bullets.  handleShoot (game.gateway.ts lines 269-286) never
reads bulletCount and pushes exactly one bullet per shoot intent. -/
theorem c7_single_bullet_counterexample :
    c7Shooter.stats.bulletCount = 3
    ∧ ((handleShoot (some c7Shooter) ⟨100, 100, 0⟩ 0 []).1).length = 1
    ∧ (1 : ℕ) ≠ 3 := by
  norm_num +decide [handleShoot, c7Shooter, freshPlayer]

/-- C9: the claim says an unknown upgrade id leaves level, exp, maxExp, hp,
stats, pendingLevelUp and immunity all unchanged.  The handler skips only
the apply closure when the lookup fails; the level-advance block
(game.gateway.ts lines 425-432) still runs: level, exp, maxExp,
pendingLevelUp and immuneUntil all change. -/
theorem c9_unknown_id_counterexample :
    (handleSelectUpgrade c9Player "bogus_id").level = 2
    ∧ (handleSelectUpgrade c9Player "bogus_id").maxExp = 120
    ∧ (handleSelectUpgrade c9Player "bogus_id").exp = 0
    ∧ (handleSelectUpgrade c9Player "bogus_id").pendingLevelUp = false
    ∧ (handleSelectUpgrade c9Player "bogus_id").immuneUntil = 0
    ∧ c9Player.level = 1 ∧ c9Player.maxExp = 100
    ∧ c9Player.pendingLevelUp = true ∧ c9Player.immuneUntil = 5000 := by
  norm_num +decide [handleSelectUpgrade, c9Player, freshPlayer, levelUpProcess,
    ALL_UPGRADES, titanHull1, rapidFire1, swiftness1, highCaliber1, magnetism1,
    titanHull2, rapidFire2, doubleBarrel1, titanHull3, rearGuardUpg, titanHull4,
    List.find?, Rat.floor]

/-- C4 witness: a concrete one-slot draft has length one and its option,
titanHull1, is a catalog entry. -/
theorem c4_draft_witness :
    ((generateUpgrades 1 [0, 0]).1).length = 1 ∧ titanHull1 ∈ ALL_UPGRADES :=
  ⟨(c4_draft_within_catalog 1 [0, 0]).1,
   (c4_draft_within_catalog 1 [0, 0]).2 titanHull1 (by
     norm_num +decide [generateUpgrades, draftSlot, draw, rarityFor, pickFrom,
       ALL_UPGRADES, titanHull1, rapidFire1, swiftness1, highCaliber1, magnetism1,
       Rat.floor, List.filter])⟩

/-- C6: for every move intent, the resulting position is exactly the prior
one when checkCollision(newX, newY, 20) holds (silent rejection) and
exactly the submitted one otherwise, while the submitted angle is always
accepted unconditionally; orb collection afterwards never moves the
player. -/
theorem c6_position_validated_angle_always (p : Player) (data : MoveData)
    (orbs : List Orb) (now : ℚ) (rands : List ℚ) :
    ((handlePlayerMove p data orbs now rands).1).x
        = (if checkCollision data.x data.y 20 then p.x else data.x)
    ∧ ((handlePlayerMove p data orbs now rands).1).y
        = (if checkCollision data.x data.y 20 then p.y else data.y)
    ∧ ((handlePlayerMove p data orbs now rands).1).angle = data.angle := by
  unfold handlePlayerMove
  dsimp only
  obtain ⟨hx, hy, ha⟩ := collectOrbs_keeps orbs
    { (if checkCollision data.x data.y 20 then p
       else { p with x := data.x, y := data.y }) with
      angle := data.angle } now rands
  refine ⟨hx.trans ?_, hy.trans ?_, ha.trans rfl⟩ <;> (dsimp only; split <;> rfl)

/-- C7 amended: every shoot intent from an existing shooter appends exactly
one bullet, at the submitted position and angle, whatever the bulletCount
stat of the shooter says; there is no fan and no per-pellet loop. -/
theorem c7_exactly_one_bullet (sh : Player) (data : ShootData) (nowMs : ℤ)
    (bullets : List Bullet) :
    (handleShoot (some sh) data nowMs bullets).1
      = bullets ++
        [{ id := sh.id ++ "-" ++ toString nowMs, x := data.x, y := data.y,
           angle := data.angle, playerId := sh.id }] := rfl

/-- C8: while pendingLevelUp is true, any sequence of exp gains (orb
pickups and kill credits in any interleaving) issues zero levelUpOptions
drafts and leaves pendingLevelUp set, so no second draft can be issued
before an upgrade selection resolves the first. -/
theorem c8_pending_blocks_second_draft (p : Player) (gains : List ℚ)
    (now : ℚ) (rands : List ℚ) (hpend : p.pendingLevelUp = true) :
    draftCount ((gainExpSeq p gains now rands).2.1) = 0
    ∧ ((gainExpSeq p gains now rands).1).pendingLevelUp = true := by
  induction gains generalizing p rands with
  | nil => exact ⟨rfl, hpend⟩
  | cons v rest ih =>
    have h1 := gainExp_of_pending p v now rands hpend
    simp only [gainExpSeq, h1]
    obtain ⟨hdc, hpd⟩ := ih { p with exp := p.exp + v } rands hpend
    exact ⟨by simpa [draftCount] using hdc, hpd⟩

/-- C8 witness: a concrete player with a pending draft gains 50 and then 20
exp while already past maxExp; no draft is issued and the pending flag
stays set. -/
theorem c8_pending_witness :
    draftCount ((gainExpSeq c8Player [50, 20] 0 []).2.1) = 0
    ∧ ((gainExpSeq c8Player [50, 20] 0 []).1).pendingLevelUp = true :=
  c8_pending_blocks_second_draft c8Player [50, 20] 0 [] rfl

/-- C9 amended: an upgrade id absent from the catalog skips only the apply
closure: the handler still runs the full level advance, so the result is
exactly levelUpProcess of the unchanged player, and in particular the
stats block is untouched; nothing is reported back. -/
theorem c9_unknown_id_skips_effect_only (p : Player) (upgradeId : String)
    (hpend : p.pendingLevelUp = true)
    (hfind : ALL_UPGRADES.find? (fun u => u.id == upgradeId) = none) :
    handleSelectUpgrade p upgradeId = levelUpProcess p
    ∧ (handleSelectUpgrade p upgradeId).stats = p.stats := by
  have main : handleSelectUpgrade p upgradeId = levelUpProcess p := by
    unfold handleSelectUpgrade
    rw [if_neg (by simp [hpend]), hfind]
  exact ⟨main, by rw [main]; rfl⟩

/-- C9 witness: the concrete unknown id bogus_id on a pending player. -/
theorem c9_unknown_witness :
    handleSelectUpgrade c9Player "bogus_id" = levelUpProcess c9Player
    ∧ (handleSelectUpgrade c9Player "bogus_id").stats = c9Player.stats :=
  c9_unknown_id_skips_effect_only c9Player "bogus_id" rfl rfl

/-- Looking up the id of a catalog entry returns that entry (all catalog
ids are distinct). -/
theorem find?_catalog_self (u : Upgrade) (hu : u ∈ ALL_UPGRADES) :
    ALL_UPGRADES.find? (fun v => v.id == u.id) = some u := by
  unfold ALL_UPGRADES at hu
  fin_cases hu <;> rfl

/-- No catalog apply closure changes the level field. -/
theorem apply_keeps_level (u : Upgrade) (hu : u ∈ ALL_UPGRADES) (p : Player) :
    (u.apply p).level = p.level := by
  unfold ALL_UPGRADES at hu
  fin_cases hu <;> rfl

/-- C10: the selection handler checks only pendingLevelUp and the catalog;
it receives no record of the options that were offered (sendLevelUpOptions
stores nothing), so every catalog id, of any rarity, is accepted: its
effect is applied and the level advance runs. -/
theorem c10_any_catalog_id_accepted (p : Player) (u : Upgrade)
    (hpend : p.pendingLevelUp = true) (hu : u ∈ ALL_UPGRADES) :
    handleSelectUpgrade p u.id = levelUpProcess (u.apply p)
    ∧ (handleSelectUpgrade p u.id).level = p.level + 1 := by
  have main : handleSelectUpgrade p u.id = levelUpProcess (u.apply p) := by
    unfold handleSelectUpgrade
    rw [if_neg (by simp [hpend]), find?_catalog_self u hu]
  refine ⟨main, ?_⟩
  rw [main]
  show (u.apply p).level + 1 = p.level + 1
  rw [apply_keeps_level u hu p]

/-- C10 witness: a pending player submits the Legendary titan_hull_4 id,
never offered to it; the upgrade is applied and the level advances. -/
theorem c10_accepted_witness :
    handleSelectUpgrade c10Player titanHull4.id
      = levelUpProcess (titanHull4.apply c10Player)
    ∧ (handleSelectUpgrade c10Player titanHull4.id).level = c10Player.level + 1 :=
  c10_any_catalog_id_accepted c10Player titanHull4 rfl (by simp [ALL_UPGRADES])

/-- C5 amended: whenever a bullet hit brings any player to 0 hp or below,
the same stepper run restores the victim hp to its maxHp and relocates it
to a fresh random position, while the shooter is credited 50 exp; there is
no dead state, no bot distinction and no respawn request involved. -/
theorem c5_lethal_hit_respawns_in_place (sh v : Player) (b : Bullet)
    (bullets : List Bullet) (c s now r1 r2 : ℚ) (rs : List ℚ)
    (hsh : sh.id = b.playerId) (hv : ¬ v.id = b.playerId)
    (hrange : inRange (moveBullet b c s) v = true)
    (himm : v.immuneUntil ≤ now) (hdead : v.hp - 10 ≤ 0) :
    (bulletTick c s now
        { bullet := b, players := [sh, v], bullets := bullets, active := true,
          events := [], rands := r1 :: r2 :: rs }).players
      = [(gainExp sh 50 now rs).1,
         { v with hp := v.maxHp, x := r1 * 3800 + 100, y := r2 * 3800 + 100 }]
    ∧ ((gainExp sh 50 now rs).1).exp = sh.exp + 50 := by
  refine ⟨?_, gainExp_exp sh 50 now rs⟩
  have hsv : ¬ sh.id = v.id := fun h => hv (by rw [← h]; exact hsh)
  have hbv : ¬ b.playerId = v.id := fun h => hv h.symm
  have hvbB : (v.id == b.playerId) = false := by simp [hv]
  have hdead2 : v.hp ≤ 10 := by linarith
  have himm2 : ¬ now < v.immuneUntil := not_lt.mpr himm
  have hmb : (moveBullet b c s).playerId = b.playerId := rfl
  simp [bulletTick, firstTarget, hmb, hsh, hv, hsv, hbv, hvbB, hrange, draw,
    updateById, List.find?, himm2, hdead2, apply_ite TickState.players]

/-- C5 witness: the concrete lethal hit on the 10 hp victim, with random
draws 1/4 and 1/10. -/
theorem c5_respawn_witness :
    (bulletTick 1 0 0
        { bullet := c5Bullet, players := [cShooter, c5Victim],
          bullets := [c5Bullet], active := true, events := [],
          rands := (1/4 : ℚ) :: (1/10 : ℚ) :: [] }).players
      = [(gainExp cShooter 50 0 []).1,
         { c5Victim with hp := c5Victim.maxHp, x := (1/4 : ℚ) * 3800 + 100,
                         y := (1/10 : ℚ) * 3800 + 100 }]
    ∧ ((gainExp cShooter 50 0 []).1).exp = cShooter.exp + 50 :=
  c5_lethal_hit_respawns_in_place cShooter c5Victim c5Bullet [c5Bullet]
    1 0 0 (1/4) (1/10) [] rfl (by decide)
    (by norm_num +decide [inRange, moveBullet, c5Bullet, c5Victim, freshPlayer])
    (by norm_num [c5Victim, freshPlayer])
    (by norm_num [c5Victim, freshPlayer])

end TinyTanks
